import Mathlib

/-!
Shallow embedding of the runtime lifecycle core of JoystickGremlin
(`src/joystick_gremlin.py`): the session orchestrator `CodeRunner`
(lines 43-114) and the diagnostic replay engine `Repeater`
(lines 117-188), together with the narrow interfaces they consume
(the event-listener signals and the mode-dispatch engine registry).

Python dicts iterate in insertion order, so the nested callback table
is embedded as nested association lists; callbacks are opaque pairs
(the `callback[0], callback[1]` arguments of `add_callback`); timer
delays are rationals so that the literal delays 1.0 and 5.0 of the
source appear as such.
-/

namespace JoystickGremlin

/-- The input types distinguished by the application (`InputType` of the
gremlin package; the file tests `InputType.Keyboard`, `JoystickAxis`,
`JoystickButton`, `JoystickHat`). -/
inductive InputType where
  | Keyboard
  | JoystickAxis
  | JoystickButton
  | JoystickHat
deriving DecidableEq

/-- An input event as far as this file inspects it: a device identity,
an event type and an identifier (axis/button/key index). -/
structure Event where
  hardware_id : Nat
  event_type : InputType
  identifier : Nat
deriving DecidableEq

/-- A default event value, used as the `List.getD` fallback. -/
def defaultEvent : Event :=
  { hardware_id := 0, event_type := InputType.Keyboard, identifier := 0 }

/-- An opaque compiled callback: the pair `(callback[0], callback[1])`
passed to `add_callback` in `CodeRunner.start`. -/
abbrev Callback := Nat × Nat

/-- One registration held by the mode-dispatch engine: the arguments of
one `add_callback(hardware_id, mode, event, callback[0], callback[1])`
call. -/
structure Registration where
  hardware_id : Nat
  mode : String
  event : Event
  callback : Callback
deriving DecidableEq

/-- The global callback table `input_devices.callback_registry`: a dict
from hardware id to a dict from mode to a dict from event key to an
ordered callback list, embedded as nested association lists in dict
(= insertion) order. -/
abbrev CallbackTable := List (Nat × List (String × List (Event × List Callback)))

instance : DecidableEq (List (String × List (Event × List Callback))) :=
  List.hasDecEq

instance : DecidableEq (Nat × List (String × List (Event × List Callback))) :=
  instDecidableEqProd

instance : DecidableEq CallbackTable :=
  List.hasDecEq

/-- The four nested `for` loops of `CodeRunner.start` (lines 68-79)
linearised: every `(hardware_id, mode, event, callback)` tuple in table
iteration order. -/
def flattenTable (t : CallbackTable) : List Registration :=
  t.flatMap fun hw =>
    hw.2.flatMap fun md =>
      md.2.flatMap fun p =>
        p.2.map fun cb =>
          { hardware_id := hw.1, mode := md.1, event := p.1, callback := cb }

/-- Modelled from the spec: the Mode-Dispatch Engine
(`gremlin/event_handler.py`, not under `src/`) holds an active mode, a
previous mode, a registry of ordered callback registrations and a
paused flag. -/
structure EventHandler where
  registry : List Registration
  active_mode : String
  previous_mode : String
  paused : Bool
deriving DecidableEq

/-- Modelled from the spec: `register_callback` appends to the ordered
callback list held for a key, preserving registration order. -/
def EventHandler.add_callback (eh : EventHandler) (hid : Nat) (mode : String)
    (ev : Event) (cb : Callback) : EventHandler :=
  { eh with registry := eh.registry ++
      [{ hardware_id := hid, mode := mode, event := ev, callback := cb }] }

/-- Modelled from the spec: `clear_registry()` empties the registry. -/
def EventHandler.clear (eh : EventHandler) : EventHandler :=
  { eh with registry := [] }

/-- Modelled from the spec: `set_mode(name)` makes the given mode the
active one. -/
def EventHandler.change_mode (eh : EventHandler) (m : String) : EventHandler :=
  { eh with active_mode := m }

/-- Modelled from the spec: `resume()` marks dispatch active. -/
def EventHandler.resume (eh : EventHandler) : EventHandler :=
  { eh with paused := false }

/-- Modelled from the spec: dispatch fires the callbacks registered for
the event's (device, mode, key), in registration order. -/
def firing_order (eh : EventHandler) (hid : Nat) (mode : String) (ev : Event) :
    List Callback :=
  (eh.registry.filter fun r =>
    r.hardware_id == hid && r.mode == mode && r.event == ev).map Registration.callback

/-- The connection state of the `EventListener` signals, as counts of
live connections: `keyboard_event -> process_event`,
`joystick_event -> process_event`, `keyboard_event -> kb.keyboard_event`
(the three `connect` calls of `CodeRunner.start`, lines 84-86). -/
structure EventListener where
  keyboard_to_process : Nat
  joystick_to_process : Nat
  keyboard_to_keyboard : Nat
deriving DecidableEq

/-- Qt `disconnect(slot)` removes every connection of the signal to that
slot, so a disconnect zeroes the corresponding count. -/
def EventListener.disconnect_all : EventListener :=
  { keyboard_to_process := 0, joystick_to_process := 0, keyboard_to_keyboard := 0 }

/-- The session orchestrator: the mode-dispatch engine it owns and its
running flag (`self._running`, line 54). -/
structure CodeRunner where
  event_handler : EventHandler
  _running : Bool
deriving DecidableEq

/-- The state `CodeRunner.start`/`CodeRunner.stop` read and write: the
orchestrator itself, the listener signal connections, and the global
`input_devices.callback_registry`. -/
structure RunnerWorld where
  runner : CodeRunner
  listener : EventListener
  callback_registry : CallbackTable
deriving DecidableEq

/-- Modelled from the spec: a fresh engine starts with an empty registry
and the distinguished global mode. -/
def EventHandler.init : EventHandler :=
  { registry := [], active_mode := "global", previous_mode := "global",
    paused := true }

/-- `CodeRunner.__init__` (lines 47-54): fresh engine, running flag
false. -/
def CodeRunner.init : CodeRunner :=
  { event_handler := EventHandler.init, _running := false }

/-- A fresh application state: new orchestrator, no signal connections,
empty global callback table. -/
def initialWorld : RunnerWorld :=
  { runner := CodeRunner.init,
    listener := { keyboard_to_process := 0, joystick_to_process := 0,
                  keyboard_to_keyboard := 0 },
    callback_registry := [] }

namespace CodeRunner

/-- `CodeRunner._reset_state` (lines 111-114): writes the engine's
active and previous mode fields to "global" directly. -/
def _reset_state (w : RunnerWorld) : RunnerWorld :=
  { w with runner := { w.runner with event_handler :=
      { w.runner.event_handler with
          active_mode := "global", previous_mode := "global" } } }

/-- `CodeRunner.start` (lines 56-95). The outcome of
`import gremlin_code; importlib.reload(gremlin_code)` is a parameter:
`Except.ok t` means the import succeeded and left the global callback
table equal to `t`; `Except.error msg` means it raised `ImportError msg`.
On success the four nested loops feed every table entry to
`add_callback`, the three signals are connected, the mode is switched to
"global", dispatch is resumed and the running flag is set. On failure
the handler calls `util.display_error` (the returned message) and does
nothing else. -/
def start (w : RunnerWorld) (load : Except String CallbackTable) :
    RunnerWorld × Option String :=
  let w := _reset_state w
  match load with
  | Except.error msg =>
      (w, some ("Unable to launch due to missing custom modules: " ++ msg))
  | Except.ok table =>
      let w := { w with callback_registry := table }
      let eh := (flattenTable table).foldl
        (fun eh r => eh.add_callback r.hardware_id r.mode r.event r.callback)
        w.runner.event_handler
      let listener : EventListener :=
        { keyboard_to_process := w.listener.keyboard_to_process + 1,
          joystick_to_process := w.listener.joystick_to_process + 1,
          keyboard_to_keyboard := w.listener.keyboard_to_keyboard + 1 }
      let eh := eh.change_mode "global"
      let eh := eh.resume
      ({ w with runner := { event_handler := eh, _running := true },
                listener := listener },
       none)

/-- `CodeRunner.stop` (lines 97-109): the three disconnects run only
under `if self._running:`; the global table assignment and
`event_handler.clear()` run unconditionally; `self._running` is never
written. -/
def stop (w : RunnerWorld) : RunnerWorld :=
  let w :=
    if w.runner._running then
      { w with listener := EventListener.disconnect_all }
    else w
  { w with callback_registry := [],
           runner := { w.runner with
              event_handler := w.runner.event_handler.clear } }

end CodeRunner

/-- A `threading.Timer` as the replay engine uses it: its delay and
whether it is live (started and not yet cancelled or fired). -/
structure Timer where
  delay : ℚ
  live : Bool
deriving DecidableEq

/-- The replay engine `Repeater` (lines 117-188): running flag, stored
event list, worker-thread state (alive flag plus a count of threads
started so far), and the two timers. -/
structure Repeater where
  is_running : Bool
  _events : List Event
  thread_alive : Bool
  threads_started : Nat
  _start_timer : Timer
  _stop_timer : Timer
deriving DecidableEq

namespace Repeater

/-- `Repeater.__init__` (lines 128-138): stores the given event list as
is, creates an unstarted worker thread and unstarted timers with delays
1.0 (debounce, calling `run`) and 5.0 (auto-stop, calling `stop`). -/
def init (events : List Event) : Repeater :=
  { is_running := false,
    _events := events,
    thread_alive := false,
    threads_started := 0,
    _start_timer := { delay := 1, live := false },
    _stop_timer := { delay := 5, live := false } }

/-- The `events` property getter (lines 140-142). -/
def events (r : Repeater) : List Event := r._events

/-- The `events` property setter (lines 144-162): ignored while running
or for an empty list; otherwise stores the list, cancels the current
debounce timer (`self._start_timer` always exists, so the `if` guard is
always taken) and arms a fresh `Timer(1.0, self.run)`. -/
def set_events (r : Repeater) (events : List Event) : Repeater :=
  if r.is_running || events.length == 0 then r
  else
    { r with _events := events,
             _start_timer := { delay := 1, live := true } }

/-- `Repeater.stop` (lines 164-166): clears the running flag, nothing
else. This is also the callback of the auto-stop timer. -/
def stop (r : Repeater) : Repeater :=
  { r with is_running := false }

/-- `Repeater.run` (lines 168-176): no-op if the worker thread is alive;
otherwise sets the running flag, arms a fresh `Timer(5.0, self.stop)`
and starts a fresh worker thread. -/
def run (r : Repeater) : Repeater :=
  if r.thread_alive then r
  else
    { r with is_running := true,
             _stop_timer := { delay := 5, live := true },
             thread_alive := true,
             threads_started := r.threads_started + 1 }

end Repeater

/-- `GremlinUi.__init__` line 439: `self.repeater = Repeater([])` — the
application constructs the replay engine with an empty event list. -/
def gremlin_ui_repeater : Repeater := Repeater.init []

/-- The two signal channels of the `EventListener` used by the worker
loop. -/
inductive Channel where
  | keyboard
  | joystick
deriving DecidableEq

/-- One iteration of the body of `Repeater.emit_events` (lines 182-188):
reads `self.events[0].event_type` to pick the channel and emits
`self._events[index]` on it. `none` models the run-time fault of an
out-of-range list access (`events[0]` on an empty list, or an index
beyond the end). -/
def emit_step (events : List Event) (index : Nat) : Option (Channel × Event) :=
  match events with
  | [] => none
  | e0 :: rest =>
      let channel :=
        if e0.event_type == InputType.Keyboard then Channel.keyboard
        else Channel.joystick
      if index < (e0 :: rest).length then
        some (channel, (e0 :: rest).getD index defaultEvent)
      else none

/-- The worker loop `Repeater.emit_events` (lines 178-188). `sched`
lists the successive values the `while self.is_running` check observes:
a `true` admits one more iteration (emit, then advance the cursor modulo
the list length), the first `false` exits the loop. While the loop runs
the event list cannot change (the setter is guarded), so it is a fixed
parameter. The result is the emission trace, or `none` if an iteration
faulted on a list access. -/
def emit_events (events : List Event) (sched : List Bool) (index : Nat) :
    Option (List (Channel × Event)) :=
  match sched with
  | [] => some []
  | b :: rest =>
      if b then
        match emit_step events index with
        | none => none
        | some em =>
            match emit_events events rest ((index + 1) % events.length) with
            | none => none
            | some tr => some (em :: tr)
      else some []

/-- Modelled from the spec: the loaded table "is iterable as
(hardware_id, mode, event_key) -> ordered callback list" — the lookup
reading of the nested table: the callbacks its (hid, mode, ev) entries
hold, in table order. -/
def tableCallbacks (t : CallbackTable) (hid : Nat) (mode : String) (ev : Event) :
    List Callback :=
  t.flatMap fun hw =>
    hw.2.flatMap fun md =>
      md.2.flatMap fun p =>
        if hw.1 == hid && md.1 == mode && p.1 == ev then p.2 else []

/-- A concrete event key: button 3 of device 1 (the spec's concrete
scenario in §8). -/
def demoEvent : Event :=
  { hardware_id := 1, event_type := InputType.JoystickButton, identifier := 3 }

/-- A concrete opaque callback pair. -/
def demoCallback : Callback := (0, 1)

/-- A one-entry callback table: device 1, mode "global", button 3, one
callback. -/
def demoTable : CallbackTable :=
  [(1, [("global", [(demoEvent, [demoCallback])])])]

/-- A world whose orchestrator is not running while the global callback
table is non-empty (as after a module import that registered callbacks
without a session being started). -/
def c3World : RunnerWorld :=
  { initialWorld with callback_registry := demoTable }

/-! ## Theorems -/

/-- Claim C1: the code violates this claim. After a successful
`start()` followed by `stop()`, the registry is indeed empty, the
global table is emptied and the three signal connections are removed —
but the running flag is still `true`, because `CodeRunner.stop`
(lines 97-109) never assigns `self._running = False`. The final
conjunct evaluates the code at the failing input and exhibits the
divergence: the claim requires the flag to be false and the
registered-iff-running invariant to hold, and both fail here. -/
theorem stop_after_start_leaves_running_flag_true :
    (CodeRunner.stop (CodeRunner.start initialWorld (Except.ok demoTable)).1).runner.event_handler.registry = [] ∧
    (CodeRunner.stop (CodeRunner.start initialWorld (Except.ok demoTable)).1).callback_registry = [] ∧
    (CodeRunner.stop (CodeRunner.start initialWorld (Except.ok demoTable)).1).listener = EventListener.disconnect_all ∧
    (CodeRunner.stop (CodeRunner.start initialWorld (Except.ok demoTable)).1).runner._running = true := by
  decide

/-- Claim C3 (counterexample): `stop()` while the running flag is false
is not a no-op — on a state with a non-empty global callback table it
empties that table, so the state after the call differs from the state
before it. -/
theorem stop_not_running_mutates_state :
    c3World.runner._running = false ∧ CodeRunner.stop c3World ≠ c3World := by
  decide

/-- Claim C3 (amended): `stop()` while the running flag is false leaves
the signal connections, the running flag and the mode state unchanged,
but still unconditionally empties the global callback table and the
engine's registry; it is a no-op exactly when both are already empty. -/
theorem stop_not_running_frame :
    ∀ w : RunnerWorld, w.runner._running = false →
      CodeRunner.stop w =
        { w with callback_registry := [],
                 runner := { w.runner with event_handler :=
                    { w.runner.event_handler with registry := [] } } } := by
  intro w h
  simp [CodeRunner.stop, EventHandler.clear, h]

/-- Witness for the amended C3 at a concrete state. -/
theorem stop_not_running_frame_witness :
    CodeRunner.stop c3World =
      { c3World with callback_registry := [],
                     runner := { c3World.runner with event_handler :=
                        { c3World.runner.event_handler with registry := [] } } } :=
  stop_not_running_frame c3World rfl

/-- Claim C4: if loading the compiled callback table fails
(`ImportError` from the dynamic import), `start()` reports a
recoverable error (the caught exception is turned into a displayed
message, and the call returns normally) and creates no partial state:
the running flag, the engine registry, the signal connections and the
global callback table are all exactly as before the call. -/
theorem start_load_failure_no_partial_state :
    ∀ (w : RunnerWorld) (msg : String), w.runner._running = false →
      (CodeRunner.start w (Except.error msg)).2.isSome = true ∧
      (CodeRunner.start w (Except.error msg)).1.runner._running = false ∧
      (CodeRunner.start w (Except.error msg)).1.runner.event_handler.registry
        = w.runner.event_handler.registry ∧
      (CodeRunner.start w (Except.error msg)).1.listener = w.listener ∧
      (CodeRunner.start w (Except.error msg)).1.callback_registry
        = w.callback_registry := by
  intro w msg h
  exact ⟨rfl, h, rfl, rfl, rfl⟩

/-- Witness for C4 at the fresh application state. -/
theorem start_load_failure_no_partial_state_witness :
    (CodeRunner.start initialWorld (Except.error "gremlin_code")).2.isSome = true ∧
    (CodeRunner.start initialWorld (Except.error "gremlin_code")).1.runner._running = false ∧
    (CodeRunner.start initialWorld (Except.error "gremlin_code")).1.runner.event_handler.registry
      = initialWorld.runner.event_handler.registry ∧
    (CodeRunner.start initialWorld (Except.error "gremlin_code")).1.listener = initialWorld.listener ∧
    (CodeRunner.start initialWorld (Except.error "gremlin_code")).1.callback_registry
      = initialWorld.callback_registry :=
  start_load_failure_no_partial_state initialWorld "gremlin_code" rfl

/-- Claim C5: the event-list setter is ignored (whole state unchanged,
timers included) when the engine is running or the list is empty;
otherwise it stores the list and replaces the debounce timer by a fresh
armed one with delay 1, touching nothing else. -/
theorem set_events_guarded_update :
    ∀ (r : Repeater) (evs : List Event),
      ((r.is_running = true ∨ evs = []) → Repeater.set_events r evs = r) ∧
      (r.is_running = false → evs ≠ [] →
        Repeater.set_events r evs =
          { r with _events := evs,
                   _start_timer := { delay := 1, live := true } }) := by
  intro r evs
  constructor
  · rintro (h | h) <;> simp [Repeater.set_events, h]
  · intro h1 h2
    simp [Repeater.set_events, h1, List.length_eq_zero, h2]

/-- Witness for C5: both branches at concrete inputs. -/
theorem set_events_guarded_update_witness :
    Repeater.set_events (Repeater.init [defaultEvent]) [] = Repeater.init [defaultEvent] ∧
    Repeater.set_events (Repeater.init []) [defaultEvent] =
      { Repeater.init [] with _events := [defaultEvent],
                              _start_timer := { delay := 1, live := true } } :=
  ⟨(set_events_guarded_update (Repeater.init [defaultEvent]) []).1 (Or.inr rfl),
   (set_events_guarded_update (Repeater.init []) [defaultEvent]).2 rfl (by decide)⟩

/-- Claim C8: `run()` is a no-op when a worker thread is alive;
otherwise it sets the running flag, arms a delay-5 auto-stop timer and
starts exactly one new worker thread — so at most one worker thread is
ever active. -/
theorem run_single_worker_guard :
    ∀ r : Repeater,
      (r.thread_alive = true → Repeater.run r = r) ∧
      (r.thread_alive = false →
        Repeater.run r =
          { r with is_running := true,
                   _stop_timer := { delay := 5, live := true },
                   thread_alive := true,
                   threads_started := r.threads_started + 1 }) := by
  intro r
  constructor <;> intro h <;> simp [Repeater.run, h]

/-- Witness for C8: a second `run()` right after a first one starts no
second thread. -/
theorem run_single_worker_guard_witness :
    Repeater.run (Repeater.run (Repeater.init [])) = Repeater.run (Repeater.init []) ∧
    Repeater.run (Repeater.init []) =
      { Repeater.init [] with is_running := true,
                              _stop_timer := { delay := 5, live := true },
                              thread_alive := true,
                              threads_started := 1 } :=
  ⟨(run_single_worker_guard (Repeater.run (Repeater.init []))).1 rfl,
   (run_single_worker_guard (Repeater.init [])).2 rfl⟩

/-- Claim C10: the constructor stores an empty list without rejection
(and the application builds `Repeater([])`), the loop body's accesses
fault (`none`) on the empty list rather than no-oping, they are
in-bounds for every non-empty list, and only the setter (which never
stores an empty list over a non-empty one) establishes non-emptiness. -/
theorem empty_events_safety :
    (Repeater.init [])._events = [] ∧
    gremlin_ui_repeater._events = [] ∧
    (∀ index : Nat, emit_step [] index = none) ∧
    (∀ (index : Nat) (rest : List Bool), emit_events [] (true :: rest) index = none) ∧
    (∀ (events : List Event) (index : Nat),
        events ≠ [] → index < events.length → (emit_step events index).isSome = true) ∧
    (∀ (r : Repeater) (evs : List Event),
        r._events ≠ [] → (Repeater.set_events r evs)._events ≠ []) := by
  refine ⟨rfl, rfl, fun _ => rfl, fun _ _ => rfl, ?_, ?_⟩
  · intro events index h hlt
    match events with
    | e0 :: rest =>
        simp only [emit_step, List.length_cons]
        rw [if_pos (by simpa using hlt)]
        rfl
  · intro r evs h
    by_cases hb : (r.is_running || evs.length == 0) = true
    · simpa [Repeater.set_events, hb] using h
    · simp only [Bool.or_eq_true, beq_iff_eq, List.length_eq_zero, not_or] at hb
      simp [Repeater.set_events, hb.1, List.length_eq_zero, hb.2]

/-- Witness for C10 at concrete inputs: empty list faults, singleton
list is in-bounds, setter preserves non-emptiness. -/
theorem empty_events_safety_witness :
    emit_step [] 0 = none ∧
    (emit_step [defaultEvent] 0).isSome = true ∧
    (Repeater.set_events (Repeater.init [defaultEvent]) [])._events ≠ [] :=
  ⟨empty_events_safety.2.2.1 0,
   empty_events_safety.2.2.2.2.1 [defaultEvent] 0 (by decide) (by decide),
   empty_events_safety.2.2.2.2.2 (Repeater.init [defaultEvent]) [] (by decide)⟩

/-- The registration loop of `start` appends the fed registrations to
the engine registry in order. -/
theorem foldl_add_callback_registry :
    ∀ (l : List Registration) (eh : EventHandler),
      (l.foldl (fun eh r => eh.add_callback r.hardware_id r.mode r.event r.callback)
          eh).registry
        = eh.registry ++ l := by
  intro l
  induction l with
  | nil => intro eh; simp
  | cons r t ih =>
      intro eh
      rw [List.foldl_cons, ih]
      simp [EventHandler.add_callback]

/-- A successful `start()` appends the flattened table to whatever the
engine registry already held. -/
theorem start_ok_registry :
    ∀ (w : RunnerWorld) (t : CallbackTable),
      (CodeRunner.start w (Except.ok t)).1.runner.event_handler.registry
        = w.runner.event_handler.registry ++ flattenTable t := by
  intro w t
  simpa [CodeRunner.start, CodeRunner._reset_state, EventHandler.change_mode,
    EventHandler.resume] using foldl_add_callback_registry (flattenTable t)
      (CodeRunner._reset_state w).runner.event_handler

/-- Claim C2 (counterexample): two `start()` calls without an
intervening `stop()`, on a table holding exactly one callback, leave
the engine registry with two registrations, not one — `start` has no
already-running guard. -/
theorem second_start_registers_twice :
    (flattenTable demoTable).length = 1 ∧
    (CodeRunner.start (CodeRunner.start initialWorld (Except.ok demoTable)).1
        (Except.ok demoTable)).1.runner.event_handler.registry.length = 2 := by
  decide

/-- Claim C2 (amended): `start()` has no running guard — a second call
without an intervening `stop()` runs the whole sequence again, so when
the reload yields the same table, every callback of the table appears
twice in the engine registry (the second copy appended after the
first) and every signal connection is made twice. -/
theorem start_start_duplicates_registrations :
    ∀ t : CallbackTable,
      (CodeRunner.start (CodeRunner.start initialWorld (Except.ok t)).1
          (Except.ok t)).1.runner.event_handler.registry
        = flattenTable t ++ flattenTable t ∧
      (CodeRunner.start (CodeRunner.start initialWorld (Except.ok t)).1
          (Except.ok t)).1.listener.keyboard_to_process = 2 ∧
      (CodeRunner.start (CodeRunner.start initialWorld (Except.ok t)).1
          (Except.ok t)).1.listener.joystick_to_process = 2 := by
  intro t
  refine ⟨?_, rfl, rfl⟩
  rw [start_ok_registry, start_ok_registry]
  simp [initialWorld, CodeRunner.init, EventHandler.init]

/-- The filter-then-project step of dispatch, restricted to the
registrations produced from one table entry: either the entry matches
the key and all its callbacks survive in order, or none do. -/
theorem filter_map_mk_callbacks
    (ehid : Nat) (emode : String) (key : Event) (cbs : List Callback)
    (hid : Nat) (mode : String) (ev : Event) :
    ((cbs.map fun cb =>
        ({ hardware_id := ehid, mode := emode, event := key, callback := cb } :
          Registration)).filter
        (fun r => r.hardware_id == hid && r.mode == mode && r.event == ev)).map
        Registration.callback
      = if ehid == hid && emode == mode && key == ev then cbs else [] := by
  induction cbs with
  | nil => simp
  | cons c t ih =>
      cases hb : (ehid == hid && emode == mode && key == ev) <;>
        simp only [hb, if_true, if_false] at ih ⊢ <;>
        simp [List.filter_cons, hb, ih]

/-- As above, over all event keys of one mode entry. -/
theorem filter_flatMap_events
    (ehid : Nat) (emode : String) (evs : List (Event × List Callback))
    (hid : Nat) (mode : String) (ev : Event) :
    (((evs.flatMap fun p => p.2.map fun cb =>
        ({ hardware_id := ehid, mode := emode, event := p.1, callback := cb } :
          Registration)).filter
        (fun r => r.hardware_id == hid && r.mode == mode && r.event == ev)).map
        Registration.callback)
      = evs.flatMap fun p =>
          if ehid == hid && emode == mode && p.1 == ev then p.2 else [] := by
  induction evs with
  | nil => simp
  | cons p t ih =>
      simp [List.flatMap_cons, List.filter_append, List.map_append, ih,
        filter_map_mk_callbacks]

/-- As above, over all modes of one device entry. -/
theorem filter_flatMap_modes
    (ehid : Nat) (mds : List (String × List (Event × List Callback)))
    (hid : Nat) (mode : String) (ev : Event) :
    (((mds.flatMap fun md => md.2.flatMap fun p => p.2.map fun cb =>
        ({ hardware_id := ehid, mode := md.1, event := p.1, callback := cb } :
          Registration)).filter
        (fun r => r.hardware_id == hid && r.mode == mode && r.event == ev)).map
        Registration.callback)
      = mds.flatMap fun md => md.2.flatMap fun p =>
          if ehid == hid && md.1 == mode && p.1 == ev then p.2 else [] := by
  induction mds with
  | nil => simp
  | cons md t ih =>
      simp [List.flatMap_cons, List.filter_append, List.map_append, ih,
        filter_flatMap_events]

/-- Filtering the flattened table for a key and projecting the
callbacks is exactly the table lookup for that key, in table order. -/
theorem filter_flattenTable :
    ∀ (t : CallbackTable) (hid : Nat) (mode : String) (ev : Event),
      (((flattenTable t).filter
          (fun r => r.hardware_id == hid && r.mode == mode && r.event == ev)).map
          Registration.callback)
        = tableCallbacks t hid mode ev := by
  intro t hid mode ev
  induction t with
  | nil => simp [flattenTable, tableCallbacks]
  | cons hw tl ih =>
      simp only [flattenTable, tableCallbacks, List.flatMap_cons,
        List.filter_append, List.map_append] at ih ⊢
      rw [ih, filter_flatMap_modes]

/-- Claim C9: a successful `start()` on a fresh state registers the
table's callbacks so that dispatch for any (hardware_id, mode,
event-key) fires exactly the callbacks of the table's entry for that
key, in table order — callbacks registered earlier fire before
callbacks registered later. -/
theorem start_preserves_table_order_dispatch :
    ∀ (t : CallbackTable) (hid : Nat) (mode : String) (ev : Event),
      firing_order
          (CodeRunner.start initialWorld (Except.ok t)).1.runner.event_handler
          hid mode ev
        = tableCallbacks t hid mode ev := by
  intro t hid mode ev
  unfold firing_order
  rw [start_ok_registry]
  simpa [initialWorld, CodeRunner.init, EventHandler.init] using
    filter_flattenTable t hid mode ev

/-- One running iteration of the worker loop: emit, then recurse with
the cursor advanced modulo the list length. -/
theorem emit_events_cons_true (events : List Event) (sched : List Bool) (index : Nat) :
    emit_events events (true :: sched) index =
      (emit_step events index).bind fun em =>
        (emit_events events sched ((index + 1) % events.length)).map (em :: ·) := by
  cases hstep : emit_step events index <;>
    cases hrec : emit_events events sched ((index + 1) % events.length) <;>
      simp [emit_events, hstep, hrec]

/-- A `false` observation of the running flag exits the loop with no
further emission. -/
theorem emit_events_cons_false (events : List Event) (sched : List Bool) (index : Nat) :
    emit_events events (false :: sched) index = some [] := rfl

/-- The trace of `k` running observations from an in-bounds cursor: the
cyclic sequence of the stored list, all on the channel picked by the
type of the list's first element. -/
theorem emit_events_replicate (e0 : Event) (rest : List Event) :
    ∀ (k index : Nat), index < (e0 :: rest).length →
      emit_events (e0 :: rest) (List.replicate k true) index =
        some ((List.range k).map fun i =>
          ((if e0.event_type == InputType.Keyboard then Channel.keyboard
            else Channel.joystick),
           (e0 :: rest).getD ((index + i) % (e0 :: rest).length) defaultEvent)) := by
  intro k
  induction k with
  | zero => intro index h; simp [emit_events]
  | succ k ih =>
      intro index h
      have hlen : 0 < (e0 :: rest).length := by simp
      have hstep : emit_step (e0 :: rest) index =
          some ((if e0.event_type == InputType.Keyboard then Channel.keyboard
                 else Channel.joystick),
                (e0 :: rest).getD index defaultEvent) := by
        simp only [emit_step]
        rw [if_pos h]
      rw [List.replicate_succ, emit_events_cons_true, hstep,
        ih ((index + 1) % (e0 :: rest).length) (Nat.mod_lt _ hlen)]
      simp only [Option.some_bind, Option.map_some']
      congr 1
      rw [List.range_succ_eq_map, List.map_cons, List.map_map]
      congr 1
      · rw [Nat.add_zero, Nat.mod_eq_of_lt h]
      · apply List.map_congr_left
        intro i _
        have h3 : index + 1 + i = index + (i + 1) := by omega
        simp [Function.comp, Nat.mod_add_mod, h3]

/-- Claim C6: for every non-empty event list, the worker loop emits,
while the running flag holds, the element at the cursor and advances
the cursor modulo the list length — the trace of `k` iterations is the
first `k` elements of the infinite cyclic sequence of the list — and
every emission goes to the keyboard channel when the first element is a
keyboard event and to the joystick channel otherwise. -/
theorem emit_events_cyclic_from_head :
    ∀ (e0 : Event) (rest : List Event) (k : Nat),
      emit_events (e0 :: rest) (List.replicate k true) 0 =
        some ((List.range k).map fun i =>
          ((if e0.event_type == InputType.Keyboard then Channel.keyboard
            else Channel.joystick),
           (e0 :: rest).getD (i % (e0 :: rest).length) defaultEvent)) := by
  intro e0 rest k
  simpa using emit_events_replicate e0 rest k 0 (by simp)

/-- Once the flag reads `false`, the rest of the schedule contributes
nothing: the trace is exactly what the running prefix produced. -/
theorem emit_events_after_false (events : List Event) (rest : List Bool) :
    ∀ (k index : Nat),
      emit_events events (List.replicate k true ++ false :: rest) index =
        emit_events events (List.replicate k true) index := by
  intro k
  induction k with
  | zero => intro index; rfl
  | succ k ih =>
      intro index
      rw [List.replicate_succ, List.cons_append, emit_events_cons_true,
        emit_events_cons_true, ih]

/-- Claim C7: clearing the running flag — `stop()` does exactly that,
and it is also the auto-stop timer's callback — makes the worker loop
exit at its next check with no further emission (a `false` observation
yields the empty continuation, and a run of `k` `true` observations
followed by `false` yields exactly the `k`-iteration trace); afterwards
the engine is idle again, so a non-empty event-list assignment is
accepted. -/
theorem emit_loop_stops_after_flag_cleared :
    ∀ (r : Repeater) (events evs : List Event) (k index : Nat) (rest : List Bool),
      (Repeater.stop r).is_running = false ∧
      emit_events events (false :: rest) index = some [] ∧
      emit_events events (List.replicate k true ++ false :: rest) index =
        emit_events events (List.replicate k true) index ∧
      (evs ≠ [] → (Repeater.set_events (Repeater.stop r) evs)._events = evs) := by
  intro r events evs k index rest
  refine ⟨rfl, rfl, emit_events_after_false events rest k index, ?_⟩
  intro h
  simp [Repeater.set_events, Repeater.stop, List.length_eq_zero, h]

/-- Witness for C7: a stopped engine accepts a new list, and a
two-iteration schedule cut off by `false` emits exactly the
two-iteration trace. -/
theorem emit_loop_stops_after_flag_cleared_witness :
    (Repeater.set_events (Repeater.stop (Repeater.run (Repeater.init [defaultEvent])))
        [defaultEvent])._events = [defaultEvent] ∧
    emit_events [defaultEvent] (List.replicate 2 true ++ false :: []) 0 =
      emit_events [defaultEvent] (List.replicate 2 true) 0 :=
  ⟨(emit_loop_stops_after_flag_cleared (Repeater.run (Repeater.init [defaultEvent]))
      [defaultEvent] [defaultEvent] 2 0 []).2.2.2 (by decide),
   (emit_loop_stops_after_flag_cleared (Repeater.init []) [defaultEvent]
      [defaultEvent] 2 0 []).2.2.1⟩

end JoystickGremlin
